import Mathlib

/-!
Shallow embedding of `docker-tui.py` (905timur/docker-tui), the live view
coordination core of a container-monitor TUI.  Pure computations (CPU
percentage, byte/field formatting) are translated to functions on `Int`,
`Nat` and `Rat`; the application state (row table, row-to-id mapping,
session flags) becomes an explicit record, and each key-binding action
becomes a state-transition function that also reports the external calls
it makes (runtime lifecycle calls, notifications, refresh requests) as a
list of effects.  Interaction with the container runtime is passed in as
explicit arguments (`Except`-valued list/stats/get results).
-/

namespace DockerTui

/-- Cumulative CPU usage counters, mirroring the `cpu_usage` dict of a
docker stats snapshot: `total_usage` plus the optional `percpu_usage`
list (absent key modelled as `none`). -/
structure CpuUsage where
  total_usage : Int
  percpu_usage : Option (List Int)
deriving Repr, DecidableEq

/-- One side of the pre/current pair: `cpu_stats` or `precpu_stats`. -/
structure CpuSide where
  cpu_usage : CpuUsage
  system_cpu_usage : Int
deriving Repr, DecidableEq

/-- Raw point stats sample as returned by `container.stats(stream=False)`:
the runtime supplies the pre/current counter pair itself, plus the
memory fields used by the two views. -/
structure RawStats where
  cpu_stats : CpuSide
  precpu_stats : CpuSide
  memory_usage : Nat
  memory_limit : Nat
deriving Repr, DecidableEq

/-- Python: `stats['cpu_stats']['cpu_usage']['total_usage'] -
stats['precpu_stats']['cpu_usage']['total_usage']`. -/
def cpuDelta (s : RawStats) : Int :=
  s.cpu_stats.cpu_usage.total_usage - s.precpu_stats.cpu_usage.total_usage

/-- Python: `stats['cpu_stats']['system_cpu_usage'] -
stats['precpu_stats']['system_cpu_usage']`. -/
def sysDelta (s : RawStats) : Int :=
  s.cpu_stats.system_cpu_usage - s.precpu_stats.system_cpu_usage

/-- Python: `len(stats['cpu_stats']['cpu_usage'].get('percpu_usage', [1]))` —
the count of reported per-core entries, with the one-element default list
giving 1 when the key is absent. -/
def numCpus (s : RawStats) : Nat :=
  (s.cpu_stats.cpu_usage.percpu_usage.getD [1]).length

/-- Exact rational value of `(cpu_delta / system_delta) * num_cpus * 100`:
the float expression of the source, written as one exact fraction
(`mkRat a b = a / b`) so that it evaluates inside the kernel.  Meaningful
when `system_delta` is positive, which every caller guarantees. -/
def cpuFormula (s : RawStats) : Rat :=
  mkRat (cpuDelta s * (numCpus s : Int) * 100) (sysDelta s).toNat

/-- CPU percentage as computed in `LogsView._update_stats` (detail view),
lines 147-155: the value is computed only when `system_delta > 0 and
cpu_delta > 0`, else it stays `0.0`. -/
def detailCpuPercent (s : RawStats) : Rat :=
  if 0 < sysDelta s ∧ 0 < cpuDelta s then cpuFormula s
  else 0

/-- Modelled from the spec: `computeCpuPercent(RawStatsPair)` — result is
`0.0` if `delta_sys <= 0 or delta_cpu <= 0`, otherwise
`(delta_cpu/delta_sys) * numCores * 100` with `numCores` the count of
per-core usage entries, defaulting to 1 if unavailable.  Kept separate so
the two code paths can be compared against it. -/
def computeCpuPercentSpec (s : RawStats) : Rat :=
  if sysDelta s ≤ 0 ∨ cpuDelta s ≤ 0 then 0
  else cpuFormula s

/-- Per-row CPU value in `DockerTUI.refresh_data`, lines 412-419: the
percentage is computed (and the cell set) only under `system_delta > 0`;
`none` stands for the untouched `"-"` placeholder.  Note the missing
`cpu_delta > 0` guard relative to the detail view. -/
def refreshCpuPercent (s : RawStats) : Option Rat :=
  if 0 < sysDelta s then some (cpuFormula s)
  else none

/-- Left-pad a digit string with zeros to `d` characters, so that the
fractional part of a fixed-point rendering always shows `d` digits. -/
def padZeros (s : String) (d : Nat) : String :=
  String.mk (List.replicate (d - s.length) '0') ++ s

/-- Render a non-negative scaled integer `n` (the value times `10 ^ d`)
with `d` fractional digits, as Python string formatting does. -/
def renderScaled (n : Nat) (d : Nat) : String :=
  if d = 0 then toString n
  else toString (n / 10 ^ d) ++ "." ++ padZeros (toString (n % 10 ^ d)) d

/-- Round the quotient `n / d` (with `d` positive) to the nearest integer,
ties to even — the rounding used by Python fixed-point formatting of an
exactly representable value.  `Int.fdiv` is the floor of the quotient and
`r` the remainder in `[0, d)`. -/
def roundHalfEvenDiv (n : Int) (d : Int) : Int :=
  let f := Int.fdiv n d
  let r := n - f * d
  if 2 * r < d then f
  else if d < 2 * r then f + 1
  else if f % 2 = 0 then f else f + 1

/-- Fixed-point rendering of a rational with `d` decimals, modelling a
Python format specifier such as `.1f` / `.2f` / `.0f`: scale by
`10 ^ d`, round half to even, render sign and padded digits. -/
def formatFixed (q : Rat) (d : Nat) : String :=
  let scaled := roundHalfEvenDiv (q.num * ((10 ^ d : Nat) : Int)) (q.den : Int)
  if scaled < 0 then "-" ++ renderScaled scaled.natAbs d
  else renderScaled scaled.natAbs d

/-- Python: the nested `format_bytes` helper of `LogsView._update_stats`,
lines 162-168: GB at two decimals from `1024**3` up, MB at one decimal
from `1024**2` up, else KB at one decimal.  The float division
`bytes_val / 1024**k` is the exact fraction `mkRat n (1024 ^ k)`. -/
def format_bytes (n : Nat) : String :=
  if 1024 ^ 3 ≤ n then formatFixed (mkRat n (1024 ^ 3)) 2 ++ "GB"
  else if 1024 ^ 2 ≤ n then formatFixed (mkRat n (1024 ^ 2)) 1 ++ "MB"
  else formatFixed (mkRat n 1024) 1 ++ "KB"

/-- Memory cell of `refresh_data`, lines 422-426: strict `>` threshold at
`1024**3`, `.1f` with suffix `G`, else `.0f` with suffix `M`. -/
def refreshMemField (bytes : Nat) : String :=
  if 1024 ^ 3 < bytes then formatFixed (mkRat bytes (1024 ^ 3)) 1 ++ "G"
  else formatFixed (mkRat bytes (1024 ^ 2)) 0 ++ "M"


/-- Per-container data returned by `client.containers.list`, restricted to
the attributes `refresh_data` reads.  The port summary is kept as the
already-joined display string and the creation timestamp as its raw
string; neither enters any claim. -/
structure ContainerInfo where
  id : String
  short_id : String
  name : String
  status : String
  image : String
  ports : String
  created : String
deriving Repr, DecidableEq

/-- Status cell of `refresh_data`, lines 376-383: icon plus status word. -/
def statusText (status : String) : String :=
  if status = "running" then "● running"
  else if status = "exited" then "■ exited"
  else if status = "paused" then "‖ paused"
  else "○ " ++ status

/-- Image cell of `refresh_data`, lines 386-388: truncate to 27 characters
plus an ellipsis when longer than 30. -/
def shortImage (image : String) : String :=
  if 30 < image.length then image.take 27 ++ "..." else image

/-- One rendered table row of `refresh_data`.  The uptime column is
omitted: it is computed from the wall clock, carries no state, and no
claim mentions it. -/
structure RowData where
  short_id : String
  name : String
  status : String
  image : String
  ports : String
  cpu : String
  mem : String
deriving Repr, DecidableEq

/-- The result of one `c.stats(stream=False)` call for a row: either the
raw sample or the exception the call raised. -/
def StatsResult : Type := Except String RawStats

/-- Build one table row from a listed container and its stats result,
mirroring the body of the `for idx, c in enumerate(containers)` loop of
`refresh_data` (lines 364-444).  `cpu_usage` and `mem_usage` start as
`"-"`; they are recomputed only for a running container whose stats call
succeeded (the bare `except: pass` of lines 427-428 keeps the
placeholders on failure). -/
def buildRow (c : ContainerInfo) (stats : StatsResult) : RowData :=
  let cpuMem : String × String :=
    if c.status = "running" then
      match stats with
      | Except.error _ => ("-", "-")
      | Except.ok s =>
        (match refreshCpuPercent s with
         | some q => formatFixed q 1
         | none => "-",
         refreshMemField s.memory_usage)
    else ("-", "-")
  { short_id := c.short_id
    name := c.name
    status := statusText c.status
    image := shortImage c.image
    ports := if c.ports = "" then "-" else c.ports
    cpu := cpuMem.1
    mem := cpuMem.2 }

/-- Rollup counts of `refresh_data`, lines 358-362: total, running,
stopped (status `exited`), paused — computed from the freshly listed
containers before any row is built. -/
def rollup (cs : List ContainerInfo) : Nat × Nat × Nat × Nat :=
  (cs.length,
   (cs.filter (fun c => c.status = "running")).length,
   (cs.filter (fun c => c.status = "exited")).length,
   (cs.filter (fun c => c.status = "paused")).length)

/-- State of an asyncio task as observable through `task.done()`:
`running` means not yet done, `done` means finished, cancelled, or
failed — in every case terminated. -/
inductive TaskState where
  | running
  | done
deriving Repr, DecidableEq

/-- State of one `LogsView` (the Detail Session): the bound container,
the two background tasks created in `on_mount` (`none` before mounting),
and the cooperative `self.running` stop flag. -/
structure LogsViewState where
  container_id : String
  container_name : String
  log_task : Option TaskState
  stats_task : Option TaskState
  running : Bool
deriving Repr, DecidableEq

/-- Model of `task.cancel()` followed by `await task` with
`asyncio.CancelledError` swallowed (lines 201-206 and 208-213): `await`
returns only once the task is done, so a running task ends up done; a
task that already finished on its own is left as is (the `done()` check
skips it), and a missing task is skipped too. -/
def cancelAwait : Option TaskState → Option TaskState
  | some TaskState.running => some TaskState.done
  | t => t

/-- Python: `LogsView.cleanup` (lines 197-213) — clear the stop flag,
then cancel-and-await each of the two tasks that is still running. -/
def cleanup (v : LogsViewState) : LogsViewState :=
  { v with
    running := false
    log_task := cancelAwait v.log_task
    stats_task := cancelAwait v.stats_task }

/-- Boolean observation `task state is terminated`: true unless the task
exists and is still running. -/
def terminated : Option TaskState → Bool
  | some TaskState.running => false
  | _ => true

/-- Application state of `DockerTUI` restricted to the fields the claims
observe: the filter flag, the logs-view re-entrancy flag, the table
cursor, the rendered rows, the `container_ids` row-to-id dict (a list
indexed by row position, as `refresh_data` numbers rows `0..n-1`), the
stats-bar rollup, and the mounted `LogsView`, if any. -/
structure AppState where
  show_all : Bool
  in_logs_view : Bool
  cursor_row : Int
  table : List RowData
  container_ids : List String
  stats_bar : Nat × Nat × Nat × Nat
  current_logs_view : Option LogsViewState
deriving Repr, DecidableEq

/-- External calls an action makes, in order: runtime lifecycle calls,
user notifications, and invocations of `refresh_data` (represented as a
marker because a refresh needs a fresh runtime response). -/
inductive Effect where
  | rtRestart (id : String)
  | rtStop (id : String)
  | rtStart (id : String)
  | rtRemove (id : String) (force : Bool)
  | notice (msg : String)
  | refreshData
deriving Repr, DecidableEq

/-- Python: `DockerTUI.refresh_data` (lines 349-447).  The method first
clears the table and the `container_ids` dict, then calls
`client.containers.list`; `listResult` is that call's outcome, each
listed container paired with the outcome of its later `c.stats` call.
On `DockerException` from the list call (caught at line 446) the method
stops after a notice, leaving the just-cleared table and mapping; on
success it updates the stats bar from the fresh list and rebuilds every
row and mapping entry from scratch. -/
def refresh_data (s : AppState)
    (listResult : Except String (List (ContainerInfo × StatsResult))) : AppState :=
  match listResult with
  | Except.error _ => { s with table := [], container_ids := [] }
  | Except.ok cs =>
    { s with
      table := cs.map (fun p => buildRow p.1 p.2)
      container_ids := cs.map (fun p => p.1.id)
      stats_bar := rollup (cs.map Prod.fst) }

/-- Row-to-handle resolution as the actions perform it:
`self.container_ids[idx]`, a plain lookup in the mapping built by the
most recent refresh.  `none` is the `KeyError` case. -/
def resolveRow (ids : List String) (idx : Nat) : Option String :=
  ids[idx]?

/-- Outcome of `client.containers.get(container_id)`: the container's
name on success, or the exception message.  Each action receives the
runtime's behaviour as this function. -/
def Runtime : Type := String → Except String String

/-- Shared shape of the four lifecycle actions (lines 475-518): each
checks only `self.table.cursor_row >= 0`, resolves the row through
`container_ids` (a `KeyError` falls into the `except` arm), calls
`client.containers.get`, performs the runtime call `call cid`, and
notifies; every failure is caught and reported as an error notice.  The
application state is returned untouched in every branch — none of these
methods writes any field or calls `refresh_data`. -/
def lifecycleEffects (call : String → Effect) (okMsg : String → String)
    (rt : Runtime) (cursor : Int) (ids : List String) : List Effect :=
  if 0 ≤ cursor then
    match resolveRow ids cursor.toNat with
    | none => [Effect.notice "Error: KeyError"]
    | some cid =>
      match rt cid with
      | Except.error e => [Effect.notice ("Error: " ++ e)]
      | Except.ok name => [call cid, Effect.notice (okMsg name)]
  else []

/-- A lifecycle action returns the state untouched: nothing in the
method body assigns a field or calls `refresh_data`. -/
def lifecycleAction (call : String → Effect) (okMsg : String → String)
    (rt : Runtime) (s : AppState) : AppState × List Effect :=
  (s, lifecycleEffects call okMsg rt s.cursor_row s.container_ids)

/-- Python: `DockerTUI.action_restart_container`, lines 475-484. -/
def action_restart_container (rt : Runtime) (s : AppState) : AppState × List Effect :=
  lifecycleAction Effect.rtRestart (fun name => "Restarting " ++ name) rt s

/-- Python: `DockerTUI.action_stop_container`, lines 486-495. -/
def action_stop_container (rt : Runtime) (s : AppState) : AppState × List Effect :=
  lifecycleAction Effect.rtStop (fun name => "Stopping " ++ name) rt s

/-- Python: `DockerTUI.action_start_container`, lines 497-506. -/
def action_start_container (rt : Runtime) (s : AppState) : AppState × List Effect :=
  lifecycleAction Effect.rtStart (fun name => "Starting " ++ name) rt s

/-- Python: `DockerTUI.action_remove_container`, lines 508-518 — the
runtime call is `container.remove(force=True)`, hence the `true` flag. -/
def action_remove_container (rt : Runtime) (s : AppState) : AppState × List Effect :=
  lifecycleAction (fun cid => Effect.rtRemove cid true) (fun name => "Removed " ++ name) rt s

/-- Python: `DockerTUI.action_toggle_filter`, lines 468-473: flip
`show_all`, notify, and call `refresh_data` — unconditionally, with no
check of `in_logs_view`. -/
def action_toggle_filter (s : AppState) : AppState × List Effect :=
  let s2 := { s with show_all := !s.show_all }
  (s2,
   [Effect.notice (if s2.show_all then "Showing: all" else "Showing: running only"),
    Effect.refreshData])

/-- Python: `DockerTUI._show_logs_view`, lines 538-549, joined with
`LogsView.on_mount` (lines 83-93), which runs during `self.mount` and
starts both background tasks: afterwards a fresh `LogsView` with both
tasks running is the `current_logs_view` and `in_logs_view` is set. -/
def show_logs_view (s : AppState) (cid name : String) : AppState :=
  { s with
    current_logs_view := some
      { container_id := cid
        container_name := name
        log_task := some TaskState.running
        stats_task := some TaskState.running
        running := true }
    in_logs_view := true }

/-- Python: `DockerTUI.action_logs`, lines 520-536: rejected up front
when `self.in_logs_view` is already set; otherwise resolves the cursor
row, fetches the container, and switches to the logs view. -/
def action_logs (rt : Runtime) (s : AppState) : AppState × List Effect :=
  if s.in_logs_view then (s, [])
  else if 0 ≤ s.cursor_row then
    match resolveRow s.container_ids s.cursor_row.toNat with
    | none => (s, [Effect.notice "Error: KeyError"])
    | some cid =>
      match rt cid with
      | Except.error e => (s, [Effect.notice ("Error: " ++ e)])
      | Except.ok name => (show_logs_view s cid name, [])
  else (s, [Effect.notice "No container selected"])

/-- Python: `DockerTUI._hide_logs_view`, lines 551-569: if a logs view is
mounted, run its `cleanup` (await both tasks) and unmount it; then show
the table again, clear `in_logs_view`, and call `refresh_data`.  The
middle component is the state of the removed `LogsView` at the moment of
unmounting, so the teardown guarantee can be stated about it. -/
def hide_logs_view (s : AppState) : AppState × Option LogsViewState × List Effect :=
  match s.current_logs_view with
  | some v =>
    ({ s with current_logs_view := none, in_logs_view := false },
     some (cleanup v), [Effect.refreshData])
  | none => ({ s with in_logs_view := false }, none, [Effect.refreshData])

/-! Concrete fixtures used by witnesses and counterexamples. -/

/-- Runtime whose `containers.get` always succeeds with name `web`. -/
def rtOk : Runtime := fun _ => Except.ok "web"

/-- Shorthand for a listed container with the given id and status. -/
def mkInfo (i st : String) : ContainerInfo :=
  { id := i, short_id := i, name := i, status := st, image := "img",
    ports := "", created := "2024-01-01T00:00:00Z" }

/-- App state in list mode with one known row selected. -/
def listState : AppState :=
  { show_all := true, in_logs_view := false, cursor_row := 0,
    table := [buildRow (mkInfo "aaa" "exited") (Except.error "n/a")],
    container_ids := ["aaa"], stats_bar := (1, 0, 1, 0),
    current_logs_view := none }

/-- App state while the detail view for container `aaa` is active. -/
def detailState : AppState :=
  { show_all := true, in_logs_view := true, cursor_row := 0,
    table := [buildRow (mkInfo "aaa" "running") (Except.error "n/a")],
    container_ids := ["aaa"], stats_bar := (1, 1, 0, 0),
    current_logs_view := some
      { container_id := "aaa", container_name := "web",
        log_task := some TaskState.running, stats_task := some TaskState.running,
        running := true } }

/-- Stats sample of the spec's worked example: `delta_cpu = 500000000`,
`delta_sys = 10000000000`, four per-core entries. -/
def specStats : RawStats :=
  { cpu_stats :=
      { cpu_usage := { total_usage := 1500000000, percpu_usage := some [1, 2, 3, 4] },
        system_cpu_usage := 20000000000 }
    precpu_stats :=
      { cpu_usage := { total_usage := 1000000000, percpu_usage := some [1, 2, 3, 4] },
        system_cpu_usage := 10000000000 }
    memory_usage := 0, memory_limit := 0 }

/-- Stats sample with a negative CPU delta (counter went backwards, as on
a counter reset): `delta_cpu = -100`, `delta_sys = 1000`, four cores. -/
def negStats : RawStats :=
  { cpu_stats :=
      { cpu_usage := { total_usage := 900, percpu_usage := some [0, 0, 0, 0] },
        system_cpu_usage := 2000 }
    precpu_stats :=
      { cpu_usage := { total_usage := 1000, percpu_usage := some [0, 0, 0, 0] },
        system_cpu_usage := 1000 }
    memory_usage := 0, memory_limit := 0 }

/-- Four listed containers, ids `a b c d` (`c` sits at row 2). -/
def fourContainers : List (ContainerInfo × StatsResult) :=
  [(mkInfo "a" "exited", Except.error "n/a"),
   (mkInfo "b" "exited", Except.error "n/a"),
   (mkInfo "c" "exited", Except.error "n/a"),
   (mkInfo "d" "exited", Except.error "n/a")]

/-- The same listing after container `c` was removed. -/
def threeContainers : List (ContainerInfo × StatsResult) :=
  [(mkInfo "a" "exited", Except.error "n/a"),
   (mkInfo "b" "exited", Except.error "n/a"),
   (mkInfo "d" "exited", Except.error "n/a")]

/-- Two running containers; the stats sample of `b` (row 1) fails. -/
def failPairList : List (ContainerInfo × StatsResult) :=
  [(mkInfo "a" "running", Except.ok specStats),
   (mkInfo "b" "running", Except.error "boom")]

/-- The same two containers with both stats samples succeeding. -/
def okPairList : List (ContainerInfo × StatsResult) :=
  [(mkInfo "a" "running", Except.ok specStats),
   (mkInfo "b" "running", Except.ok specStats)]

/-- C1: after teardown (`cleanup`, invoked from `_hide_logs_view`)
returns, both background tasks of the detail session are terminated —
the stop flag is cleared, a still-running task is cancelled and awaited
(so it ends done), and a task that already finished on its own, or was
never started, is tolerated unchanged; `_hide_logs_view` removes exactly
the cleaned-up view. -/
theorem c1_teardown_terminates_both_tasks (v : LogsViewState) (s : AppState) :
    (cleanup v).running = false ∧
    terminated (cleanup v).log_task = true ∧
    terminated (cleanup v).stats_task = true ∧
    (hide_logs_view s).2.1 = Option.map cleanup s.current_logs_view := by
  refine ⟨rfl, ?_, ?_, ?_⟩
  · cases h : v.log_task with
    | none => simp [cleanup, cancelAwait, terminated, h]
    | some t => cases t <;> simp [cleanup, cancelAwait, terminated, h]
  · cases h : v.stats_task with
    | none => simp [cleanup, cancelAwait, terminated, h]
    | some t => cases t <;> simp [cleanup, cancelAwait, terminated, h]
  · cases h : s.current_logs_view <;> simp [hide_logs_view, h]

/-- C4: a second `action_logs` while a detail session is already active
is a no-op — the first request (from list mode, with a resolvable row)
mounts exactly one logs view and sets `in_logs_view`, and a repeat
request with no intervening `_hide_logs_view` returns the state
unchanged, creating no second session. -/
theorem c4_second_enter_detail_rejected (rt : Runtime) (s : AppState) (cid name : String)
    (hview : s.in_logs_view = false) (hcur : 0 ≤ s.cursor_row)
    (hres : resolveRow s.container_ids s.cursor_row.toNat = some cid)
    (hget : rt cid = Except.ok name) :
    (action_logs rt s).1.in_logs_view = true ∧
    (action_logs rt s).1.current_logs_view = some
      { container_id := cid, container_name := name,
        log_task := some TaskState.running, stats_task := some TaskState.running,
        running := true } ∧
    action_logs rt ((action_logs rt s).1) = ((action_logs rt s).1, []) := by
  have h1 : action_logs rt s = (show_logs_view s cid name, []) := by
    simp [action_logs, hview, hcur, hres, hget]
  rw [h1]
  refine ⟨rfl, rfl, ?_⟩
  simp [action_logs, show_logs_view]

/-- Witness for C4 at a concrete list-mode state. -/
theorem c4_witness :
    (action_logs rtOk listState).1.in_logs_view = true ∧
    action_logs rtOk ((action_logs rtOk listState).1) =
      ((action_logs rtOk listState).1, []) :=
  ⟨(c4_second_enter_detail_rejected rtOk listState "aaa" "web" rfl (by decide) rfl rfl).1,
   (c4_second_enter_detail_rejected rtOk listState "aaa" "web" rfl (by decide) rfl rfl).2.2⟩

/-- C2 counterexample: with a non-empty previous snapshot, a refresh
whose runtime list call fails leaves the observer an empty table and
mapping — `refresh_data` clears both before calling the runtime — so
the observer sees neither the complete previous snapshot (non-empty)
nor any new one (none exists: the list call failed). -/
theorem c2_counterexample :
    listState.table ≠ [] ∧
    (refresh_data listState (Except.error "docker daemon unreachable")).table = [] ∧
    (refresh_data listState (Except.error "docker daemon unreachable")).container_ids = [] := by
  refine ⟨?_, rfl, rfl⟩
  decide

/-- C2 (amended): on a successful list call the refresh is atomic — the
whole new snapshot and mapping replace the old in one step, and the
result does not depend on the previous contents; but on a failed list
call the observer sees the empty table and mapping (cleared up front),
not the previous snapshot. -/
theorem c2_refresh_all_or_empty (s s2 : AppState)
    (r : Except String (List (ContainerInfo × StatsResult))) :
    ((refresh_data s r).table = (refresh_data s2 r).table ∧
     (refresh_data s r).container_ids = (refresh_data s2 r).container_ids) ∧
    (((refresh_data s r).table = [] ∧ (refresh_data s r).container_ids = []) ∨
     (∃ cs, r = Except.ok cs ∧
       (refresh_data s r).table = cs.map (fun p => buildRow p.1 p.2) ∧
       (refresh_data s r).container_ids = cs.map (fun p => p.1.id))) := by
  cases r with
  | error e => exact ⟨⟨rfl, rfl⟩, Or.inl ⟨rfl, rfl⟩⟩
  | ok cs => exact ⟨⟨rfl, rfl⟩, Or.inr ⟨cs, rfl, rfl, rfl⟩⟩

/-- C6 counterexample: container `c` sits at row 2; after it is removed
and a fresh refresh runs, resolving row 2 silently yields the handle of
`d`, the different container now occupying that row — not a NotFound
failure (`none`). -/
theorem c6_counterexample :
    resolveRow (refresh_data listState (Except.ok fourContainers)).container_ids 2 =
      some "c" ∧
    resolveRow
      (refresh_data (refresh_data listState (Except.ok fourContainers))
        (Except.ok threeContainers)).container_ids 2 = some "d" ∧
    some "d" ≠ (none : Option String) ∧ "d" ≠ "c" := by
  refine ⟨rfl, rfl, by decide, by decide⟩

/-- C6 (amended): row resolution is purely positional against the most
recent refresh — it returns the id of whichever container now occupies
the row, and fails (`none`, the KeyError path) exactly when the index is
outside the fresh mapping. -/
theorem c6_resolve_is_positional (s : AppState)
    (cs : List (ContainerInfo × StatsResult)) (i : Nat) :
    resolveRow (refresh_data s (Except.ok cs)).container_ids i =
      cs[i]?.map (fun p => p.1.id) := by
  simp [refresh_data, resolveRow, List.getElem?_map]

/-- C3 counterexample: in a detail-mode state (`in_logs_view` set, a
valid cursor), the restart action still performs the runtime lifecycle
call and the filter toggle still flips `show_all` and forces a refresh —
neither is rejected, because none of these handlers checks
`in_logs_view`. -/
theorem c3_counterexample :
    detailState.in_logs_view = true ∧
    Effect.rtRestart "aaa" ∈ (action_restart_container rtOk detailState).2 ∧
    Effect.rtStop "aaa" ∈ (action_stop_container rtOk detailState).2 ∧
    Effect.rtStart "aaa" ∈ (action_start_container rtOk detailState).2 ∧
    Effect.rtRemove "aaa" true ∈ (action_remove_container rtOk detailState).2 ∧
    (action_toggle_filter detailState).1.show_all = false ∧
    detailState.show_all = true ∧
    Effect.refreshData ∈ (action_toggle_filter detailState).2 := by
  decide

/-- C3 (amended): the four lifecycle actions and the filter toggle are
not gated on the session state at all — their behaviour is identical
whatever the value of `in_logs_view` (they are guarded only by the
cursor and the row mapping), and the toggle always flips the filter and
forces a refresh.  Only `action_logs` checks `in_logs_view`. -/
theorem c3_actions_not_gated_on_session (rt : Runtime) (s : AppState) (b : Bool) :
    (action_restart_container rt { s with in_logs_view := b }).2 =
      (action_restart_container rt s).2 ∧
    (action_stop_container rt { s with in_logs_view := b }).2 =
      (action_stop_container rt s).2 ∧
    (action_start_container rt { s with in_logs_view := b }).2 =
      (action_start_container rt s).2 ∧
    (action_remove_container rt { s with in_logs_view := b }).2 =
      (action_remove_container rt s).2 ∧
    (action_toggle_filter { s with in_logs_view := b }).1.show_all = !s.show_all ∧
    Effect.refreshData ∈ (action_toggle_filter { s with in_logs_view := b }).2 := by
  cases s
  refine ⟨rfl, rfl, rfl, rfl, rfl, ?_⟩
  simp [action_toggle_filter]

/-- C5 counterexample: on a sample whose CPU counter went backwards
(`delta_cpu = -100 < 0`, `delta_sys = 1000 > 0`), the claimed
`computeCpuPercent` returns exactly `0.0`, but the registry refresh
path — which checks only `system_delta > 0` — computes the negative
value `-40`, so the refresh per-row computation does not satisfy the
claimed specification. -/
theorem c5_counterexample :
    cpuDelta negStats < 0 ∧ 0 < sysDelta negStats ∧
    computeCpuPercentSpec negStats = 0 ∧
    refreshCpuPercent negStats = some (mkRat (-40) 1) ∧
    mkRat (-40) 1 ≠ (0 : Rat) := by
  decide

/-- C5 (amended): the detail-view stats loop computes exactly the claimed
`computeCpuPercent` (zero when either delta is non-positive, else the
formula with the per-core count defaulting to 1); the registry refresh
guards only `delta_sys > 0`: when `delta_sys ≤ 0` the row keeps the
`"-"` placeholder rather than showing `0.0`, and when `delta_sys > 0`
it applies the formula unconditionally, so a negative `delta_cpu`
produces a negative value instead of `0.0`. -/
theorem c5_cpu_percent_two_paths (s : RawStats) :
    detailCpuPercent s = computeCpuPercentSpec s ∧
    (sysDelta s ≤ 0 → refreshCpuPercent s = none) ∧
    (0 < sysDelta s → refreshCpuPercent s = some (cpuFormula s)) := by
  refine ⟨?_, ?_, ?_⟩
  · unfold detailCpuPercent computeCpuPercentSpec
    by_cases h1 : 0 < sysDelta s
    · by_cases h2 : 0 < cpuDelta s
      · rw [if_pos ⟨h1, h2⟩, if_neg]
        push_neg
        exact ⟨h1, h2⟩
      · rw [if_neg (fun hc => h2 hc.2), if_pos (Or.inr (not_lt.mp h2))]
    · rw [if_neg (fun hc => h1 hc.1), if_pos (Or.inl (not_lt.mp h1))]
  · intro h
    unfold refreshCpuPercent
    rw [if_neg (not_lt.mpr h)]
  · intro h
    unfold refreshCpuPercent
    rw [if_pos h]

/-- Witness for C5 (amended) at the spec's worked example, where the
refresh path yields exactly 20. -/
theorem c5_witness :
    0 < sysDelta specStats ∧
    refreshCpuPercent specStats = some 20 ∧
    detailCpuPercent specStats = computeCpuPercentSpec specStats :=
  ⟨by decide,
   ((c5_cpu_percent_two_paths specStats).2.2 (by decide)).trans (by decide),
   (c5_cpu_percent_two_paths specStats).1⟩

/-- C7: within one refresh, a failed stats sample degrades only that
row's CPU and memory cells to `"-"`, leaving its identity cells intact;
every other row of the same refresh, and the rollup counts (computed
from the list call alone), are exactly what they would have been had
that sample succeeded. -/
theorem c7_stats_failure_isolated (s : AppState)
    (cs1 cs2 : List (ContainerInfo × StatsResult)) (k : Nat)
    (c : ContainerInfo) (e : String)
    (hinfo : cs1.map Prod.fst = cs2.map Prod.fst)
    (hoth : ∀ j, j ≠ k → cs1[j]? = cs2[j]?)
    (hk : cs1[k]? = some (c, Except.error e)) :
    ((refresh_data s (Except.ok cs1)).table[k]? = some (buildRow c (Except.error e)) ∧
     (buildRow c (Except.error e)).cpu = "-" ∧
     (buildRow c (Except.error e)).mem = "-" ∧
     (buildRow c (Except.error e)).short_id = c.short_id ∧
     (buildRow c (Except.error e)).name = c.name ∧
     (buildRow c (Except.error e)).status = statusText c.status ∧
     (buildRow c (Except.error e)).image = shortImage c.image) ∧
    (∀ j, j ≠ k →
      (refresh_data s (Except.ok cs1)).table[j]? =
        (refresh_data s (Except.ok cs2)).table[j]?) ∧
    (refresh_data s (Except.ok cs1)).stats_bar =
      (refresh_data s (Except.ok cs2)).stats_bar := by
  refine ⟨⟨?_, ?_, ?_, rfl, rfl, rfl, rfl⟩, ?_, ?_⟩
  · simp [refresh_data, List.getElem?_map, hk]
  · unfold buildRow
    dsimp only
    split <;> rfl
  · unfold buildRow
    dsimp only
    split <;> rfl
  · intro j hj
    simp [refresh_data, List.getElem?_map, hoth j hj]
  · simp [refresh_data, hinfo]

/-- Witness for C7 on two concrete running containers where only the
second row's sample fails. -/
theorem c7_witness :
    (refresh_data listState (Except.ok failPairList)).table[0]? =
      (refresh_data listState (Except.ok okPairList)).table[0]? ∧
    (buildRow (mkInfo "b" "running") (Except.error "boom")).cpu = "-" ∧
    (refresh_data listState (Except.ok failPairList)).stats_bar =
      (refresh_data listState (Except.ok okPairList)).stats_bar := by
  have h := c7_stats_failure_isolated listState failPairList okPairList 1
    (mkInfo "b" "running") "boom" rfl
    (fun j hj => by
      match j with
      | 0 => rfl
      | 1 => exact absurd rfl hj
      | Nat.succ (Nat.succ n) => rfl)
    rfl
  exact ⟨h.2.1 0 (by decide), h.1.2.1, h.2.2⟩

/-- Helper: the effects of a lifecycle action never include a refresh,
whatever the cursor, mapping and runtime outcome, provided the runtime
call itself is not the refresh marker. -/
theorem refreshData_not_in_lifecycleEffects (call : String → Effect)
    (okMsg : String → String) (rt : Runtime) (cursor : Int) (ids : List String)
    (hcall : ∀ cid, call cid ≠ Effect.refreshData) :
    Effect.refreshData ∉ lifecycleEffects call okMsg rt cursor ids := by
  intro hmem
  unfold lifecycleEffects at hmem
  split at hmem
  · split at hmem
    · simp at hmem
    · split at hmem
      · simp at hmem
      · rcases List.mem_cons.mp hmem with h | h
        · exact hcall _ h.symm
        · simp at h
  · simp at hmem

/-- C8: a lifecycle action (restart, stop, start, remove) leaves the
whole application state — table, row-to-id mapping, filter, rollup —
untouched and never invokes `refresh_data`; reconciliation is driven
elsewhere: the filter toggle and the detail-view exit do invoke it (as
does the 10-second timer, outside this model). -/
theorem c8_lifecycle_actions_leave_registry_alone (rt : Runtime) (s : AppState) :
    ((action_restart_container rt s).1 = s ∧
     Effect.refreshData ∉ (action_restart_container rt s).2) ∧
    ((action_stop_container rt s).1 = s ∧
     Effect.refreshData ∉ (action_stop_container rt s).2) ∧
    ((action_start_container rt s).1 = s ∧
     Effect.refreshData ∉ (action_start_container rt s).2) ∧
    ((action_remove_container rt s).1 = s ∧
     Effect.refreshData ∉ (action_remove_container rt s).2) ∧
    Effect.refreshData ∈ (action_toggle_filter s).2 ∧
    Effect.refreshData ∈ (hide_logs_view s).2.2 := by
  refine ⟨⟨rfl, refreshData_not_in_lifecycleEffects _ _ _ _ _ ?_⟩,
    ⟨rfl, refreshData_not_in_lifecycleEffects _ _ _ _ _ ?_⟩,
    ⟨rfl, refreshData_not_in_lifecycleEffects _ _ _ _ _ ?_⟩,
    ⟨rfl, refreshData_not_in_lifecycleEffects _ _ _ _ _ ?_⟩, ?_, ?_⟩
  · exact fun cid h => Effect.noConfusion h
  · exact fun cid h => Effect.noConfusion h
  · exact fun cid h => Effect.noConfusion h
  · exact fun cid h => Effect.noConfusion h
  · simp [action_toggle_filter]
  · cases h : s.current_logs_view <;> simp [hide_logs_view, h]

/-- Witness for C8 at a concrete list-mode state. -/
theorem c8_witness :
    (action_stop_container rtOk listState).1 = listState ∧
    Effect.refreshData ∉ (action_stop_container rtOk listState).2 :=
  ⟨(c8_lifecycle_actions_leave_registry_alone rtOk listState).2.1.1,
   (c8_lifecycle_actions_leave_registry_alone rtOk listState).2.1.2⟩

/-- C9: `format_bytes` picks GB (two decimals) from `1024 ^ 3` up, MB
(one decimal) from `1024 ^ 2` up, KB (one decimal) below that, and on
the three reference inputs renders exactly the claimed strings. -/
theorem c9_format_bytes_units (n : Nat) :
    (1024 ^ 3 ≤ n → format_bytes n = formatFixed (mkRat n (1024 ^ 3)) 2 ++ "GB") ∧
    (1024 ^ 2 ≤ n → n < 1024 ^ 3 → format_bytes n = formatFixed (mkRat n (1024 ^ 2)) 1 ++ "MB") ∧
    (n < 1024 ^ 2 → format_bytes n = formatFixed (mkRat n 1024) 1 ++ "KB") ∧
    format_bytes 1073741824 = "1.00GB" ∧
    format_bytes 2097152 = "2.0MB" ∧
    format_bytes 512 = "0.5KB" := by
  refine ⟨?_, ?_, ?_, by decide, by decide, by decide⟩
  · intro h
    unfold format_bytes
    rw [if_pos h]
  · intro h1 h2
    unfold format_bytes
    rw [if_neg (not_le.mpr h2), if_pos h1]
  · intro h
    have h3 : ¬ 1024 ^ 3 ≤ n := not_le.mpr (lt_trans h (by norm_num))
    unfold format_bytes
    rw [if_neg h3, if_neg (not_le.mpr h)]

/-- Witness for C9 at the GB and KB reference inputs. -/
theorem c9_witness :
    1024 ^ 3 ≤ 1073741824 ∧
    format_bytes 1073741824 = formatFixed (mkRat 1073741824 (1024 ^ 3)) 2 ++ "GB" ∧
    512 < 1024 ^ 2 ∧
    format_bytes 512 = formatFixed (mkRat 512 1024) 1 ++ "KB" :=
  ⟨by decide, (c9_format_bytes_units 1073741824).1 (by decide), by decide,
   (c9_format_bytes_units 512).2.2.1 (by decide)⟩

/-- C10: whenever the remove action reaches its runtime call, that call
is `container.remove(force=True)` — the force flag is always set, so
removal is attempted even on a running container. -/
theorem c10_remove_uses_force (rt : Runtime) (s : AppState) (cid name : String)
    (hcur : 0 ≤ s.cursor_row)
    (hres : resolveRow s.container_ids s.cursor_row.toNat = some cid)
    (hget : rt cid = Except.ok name) :
    (action_remove_container rt s).2 =
      [Effect.rtRemove cid true, Effect.notice ("Removed " ++ name)] := by
  simp [action_remove_container, lifecycleAction, lifecycleEffects, hcur, hres, hget]

/-- Witness for C10 at a concrete list-mode state. -/
theorem c10_witness :
    (action_remove_container rtOk listState).2 =
      [Effect.rtRemove "aaa" true, Effect.notice ("Removed " ++ "web")] :=
  c10_remove_uses_force rtOk listState "aaa" "web" (by decide) rfl rfl

end DockerTui

